import Mathlib

/-!
Shallow embedding of `src/main.py` (a Google Drive MCP server).

Every function of the source is modelled as a pure Lean function from an
environment — which supplies the outcomes of all external effects
(filesystem checks, the pickle token store, the identity-provider client,
and the storage-service client) — to a pair of an `Except` result
(`Except.error` models a raised Python exception) and a trace of the
side-effect events the function performs, in order.
-/

namespace GDrive

/-- `SCRIPT_DIR = os.path.dirname(os.path.abspath(__file__))`: the directory
holding the script; its concrete value is irrelevant to every claim, so it is
modelled as a fixed path. -/
def SCRIPT_DIR : String := "/srv/google-drive-mcp-server"

/-- `CREDENTIALS_FILE = os.path.join(SCRIPT_DIR, "credentials.json")`. -/
def CREDENTIALS_FILE : String := SCRIPT_DIR ++ "/credentials.json"

/-- `TOKEN_FILE = os.path.join(SCRIPT_DIR, "token.pickle")`. -/
def TOKEN_FILE : String := SCRIPT_DIR ++ "/token.pickle"

/-- The fixed scope list `SCOPES` from the source. -/
def SCOPES : List String :=
  ["https://www.googleapis.com/auth/drive",
   "https://www.googleapis.com/auth/drive.file"]

/-- The attributes of a `google.oauth2.credentials.Credentials` object that
`get_drive` reads.  In the external library `valid` holds iff an access token
is present and not expired, and `refresh_token` records whether a refresh
token is present; here they are the observable Boolean attributes. -/
structure Creds where
  valid : Bool
  expired : Bool
  refresh_token : Bool
deriving DecidableEq, Repr

/-- A ready-to-use storage-service handle, carrying the Credential it was
built from (`build("drive", "v3", credentials=creds)`). -/
structure ServiceHandle where
  creds : Creds
deriving DecidableEq, Repr

/-- Python exceptions that can flow through the program, with their `str(e)`
message.  `nonTermination` is a modelling artifact: the download loop of the
source would spin forever on a chunk plan that never reports completion, and
the embedding returns this designated error instead. -/
inductive Err where
  | fileNotFound (msg : String)
  | authFlow (msg : String)
  | pickle (msg : String)
  | http (msg : String)
  | nonTermination
deriving DecidableEq, Repr

/-- `str(e)` for a modelled exception. -/
def errMsg : Err → String
  | Err.fileNotFound m => m
  | Err.authFlow m => m
  | Err.pickle m => m
  | Err.http m => m
  | Err.nonTermination => "download loop exhausted"

/-- The request body dict passed to `files().create` (name, optional
mimeType, optional parents list). -/
structure FileMetadata where
  name : String
  mimeType : Option String
  parents : Option (List String)
deriving DecidableEq, Repr

/-- Side-effect events, in program order.  `listCall`, `getCall`,
`createCall`, `updateCall`, `deleteCall` and `fetchChunk` are requests
issued to the storage service; `refreshCall` and `oauthFlow` are network
interactions with the identity provider; `getMediaRequest` only constructs a
request object (no network in the client library). -/
inductive Ev where
  | stderr (msg : String)
  | checkExists (path : String)
  | readToken
  | refreshCall
  | oauthFlow (clientSecretsFile : String) (scopes : List String)
  | writeToken
  | buildService
  | listCall (q : Option String) (pageSize : Int) (flds : String)
  | getCall (fileId : String) (flds : String)
  | createCall (body : FileMetadata) (hasMedia : Bool) (flds : String)
  | updateCall (fileId : String) (bodyName : Option String)
      (addParents : Option String) (removeParents : Option String) (flds : String)
  | deleteCall (fileId : String)
  | getMediaRequest (fileId : String)
  | openLocalWrite (path : String)
  | fetchChunk (idx : Nat)
deriving DecidableEq, Repr

/-- Requests issued to the storage service (network calls against Drive). -/
def Ev.isStorageCall : Ev → Bool
  | Ev.listCall .. => true
  | Ev.getCall .. => true
  | Ev.createCall .. => true
  | Ev.updateCall .. => true
  | Ev.deleteCall .. => true
  | Ev.fetchChunk .. => true
  | _ => false

/-- Network interactions with the identity provider (token refresh or
interactive authorization). -/
def Ev.isNetworkAuth : Ev → Bool
  | Ev.refreshCall => true
  | Ev.oauthFlow .. => true
  | _ => false

/-- An interactive-authorization event. -/
def Ev.isOauthFlow : Ev → Bool
  | Ev.oauthFlow .. => true
  | _ => false

/-- A `files().list` request event. -/
def Ev.isListCall : Ev → Bool
  | Ev.listCall .. => true
  | _ => false

/-- A `files().update` request event. -/
def Ev.isUpdateCall : Ev → Bool
  | Ev.updateCall .. => true
  | _ => false

/-- A `files().create` request event. -/
def Ev.isCreateCall : Ev → Bool
  | Ev.createCall .. => true
  | _ => false

/-- A chunk fetch performed by the media downloader. -/
def Ev.isFetchChunk : Ev → Bool
  | Ev.fetchChunk .. => true
  | _ => false

/-- Environment for `get_drive`: outcomes of the filesystem checks, of
unpickling the token store, and of the identity-provider client. -/
structure AuthEnv where
  credentialsFileExists : Bool
  tokenFileExists : Bool
  loadToken : Except Err Creds
  refresh : Creds → Except Err Creds
  runOAuthFlow : Except Err Creds

/-- A record returned by the storage service, modelled as the attribute
dictionary of the response (`file.get(key)` is association lookup). -/
structure RemoteRecord where
  attrs : List (String × String)
deriving DecidableEq, Repr

/-- Python `dict.get(key)` on a response record. -/
def RemoteRecord.get (r : RemoteRecord) (k : String) : Option String :=
  (r.attrs.find? (fun kv => kv.1 == k)).map (fun kv => kv.2)

/-- How Python prints an `Optional[str]` inside an f-string. -/
def pyStr : Option String → String
  | none => "None"
  | some s => s

/-- Python truthiness of an optional string argument: `None` and `""` are
falsy, every other string is truthy. -/
def truthy : Option String → Bool
  | none => false
  | some s => s != ""

/-- `os.path.basename` for POSIX paths: the component after the last slash. -/
def basename (p : String) : String := (p.splitOn "/").getLastD ""

/-- Environment for the tool surface: the auth environment plus outcomes of
local-file existence checks and of each kind of storage-service request.
`getMediaPlan` is the downloader's chunk sequence: each step either fails or
yields (reported integer progress percent, completion flag). -/
structure DriveEnv where
  auth : AuthEnv
  localExists : String → Bool
  listResp : Except Err (Option (List RemoteRecord))
  createResp : Except Err RemoteRecord
  getParentsResp : Except Err (Option (List String))
  updateResp : Except Err RemoteRecord
  deleteResp : Except Err Unit
  getInfoResp : Except Err RemoteRecord
  getMediaPlan : List (Except Err (Nat × Bool))

/-- The `except Exception as e: print(...); raise` wrapper shared by
`get_drive` and every tool: on failure it logs the error to stderr and
re-raises the same exception; on success it is the identity. -/
def toolWrap {α : Type} (fname : String) (body : Except Err α × List Ev) :
    Except Err α × List Ev :=
  match body.1 with
  | Except.ok v => (Except.ok v, body.2)
  | Except.error e =>
      (Except.error e, body.2 ++ [Ev.stderr ("ERROR in " ++ fname ++ ": " ++ errMsg e)])

/-- Trace of `pickle.dump` of the fresh creds plus building the service
(source lines 57–64, shared by the refresh and OAuth branches). -/
def saveAndBuildTrace : List Ev :=
  [Ev.stderr "Saving token...", Ev.writeToken,
   Ev.stderr "Building Drive service...", Ev.buildService,
   Ev.stderr "Drive service ready!"]

/-- Lines 44–65 of `get_drive`, after `creds` has been set from the token
store (`none` when no token file existed): the valid-creds fast path, the
refresh branch, and the interactive OAuth branch. -/
def get_drive_withCreds (env : AuthEnv) (creds0 : Option Creds) :
    Except Err ServiceHandle × List Ev :=
  match creds0 with
  | some c =>
    if c.valid then
      -- `if not creds or not creds.valid` is false: skip to build
      (Except.ok { creds := c },
       [Ev.stderr "Building Drive service...", Ev.buildService,
        Ev.stderr "Drive service ready!"])
    else if c.expired && c.refresh_token then
      match env.refresh c with
      | Except.error e => (Except.error e, [Ev.stderr "Refreshing expired token...", Ev.refreshCall])
      | Except.ok c2 =>
          (Except.ok { creds := c2 },
           [Ev.stderr "Refreshing expired token...", Ev.refreshCall] ++ saveAndBuildTrace)
    else
      match env.runOAuthFlow with
      | Except.error e =>
          (Except.error e,
           [Ev.stderr "Starting OAuth flow...", Ev.oauthFlow CREDENTIALS_FILE SCOPES])
      | Except.ok c2 =>
          (Except.ok { creds := c2 },
           [Ev.stderr "Starting OAuth flow...", Ev.oauthFlow CREDENTIALS_FILE SCOPES,
            Ev.stderr "OAuth flow completed"] ++ saveAndBuildTrace)
  | none =>
    match env.runOAuthFlow with
    | Except.error e =>
        (Except.error e,
         [Ev.stderr "Starting OAuth flow...", Ev.oauthFlow CREDENTIALS_FILE SCOPES])
    | Except.ok c2 =>
        (Except.ok { creds := c2 },
         [Ev.stderr "Starting OAuth flow...", Ev.oauthFlow CREDENTIALS_FILE SCOPES,
          Ev.stderr "OAuth flow completed"] ++ saveAndBuildTrace)

/-- Body of `get_drive` (lines 27–65): credentials.json existence check,
token-store load, then `get_drive_withCreds`. -/
def get_drive_body (env : AuthEnv) : Except Err ServiceHandle × List Ev :=
  let t1 : List Ev := [Ev.stderr "Starting authentication process...",
                       Ev.checkExists CREDENTIALS_FILE]
  if !env.credentialsFileExists then
    (Except.error (Err.fileNotFound ("credentials.json not found at " ++ CREDENTIALS_FILE)),
     t1 ++ [Ev.stderr ("ERROR: credentials.json not found at " ++ CREDENTIALS_FILE ++ "!")])
  else
    let t2 := t1 ++ [Ev.stderr ("credentials.json found at " ++ CREDENTIALS_FILE),
                     Ev.checkExists TOKEN_FILE]
    if env.tokenFileExists then
      let t3 := t2 ++ [Ev.stderr "Loading existing token...", Ev.readToken]
      match env.loadToken with
      | Except.error e => (Except.error e, t3)
      | Except.ok c =>
          let r := get_drive_withCreds env (some c)
          (r.1, t3 ++ r.2)
    else
      let r := get_drive_withCreds env none
      (r.1, t2 ++ r.2)

/-- `get_drive` (lines 26–69): the body wrapped in the log-and-reraise
exception handler. -/
def get_drive (env : AuthEnv) : Except Err ServiceHandle × List Ev :=
  toolWrap "get_drive" (get_drive_body env)

/-- The `fields` selector used by `list_drive_files` and
`search_drive_files`. -/
def listFields : String :=
  "files(id, name, mimeType, size, createdTime, modifiedTime, webViewLink)"

/-- Body of `list_drive_files` (lines 81–93): params carry `q` only when
`query` is truthy; result is `results.get('files', [])`. -/
def list_drive_files_body (env : DriveEnv) (max_results : Int) (query : String) :
    Except Err (List RemoteRecord) × List Ev :=
  match get_drive env.auth with
  | (Except.error e, t) => (Except.error e, t)
  | (Except.ok _, t) =>
    let q : Option String := if query != "" then some query else none
    let t2 := t ++ [Ev.listCall q max_results listFields]
    match env.listResp with
    | Except.error e => (Except.error e, t2)
    | Except.ok resp =>
      let files := resp.getD []
      (Except.ok files,
       t2 ++ [Ev.stderr ("Found " ++ toString files.length ++ " files")])

/-- `list_drive_files` tool (lines 72–96). -/
def list_drive_files (env : DriveEnv) (max_results : Int) (query : String) :
    Except Err (List RemoteRecord) × List Ev :=
  toolWrap "list_drive_files" (list_drive_files_body env max_results query)

/-- Body of `search_drive_files` (lines 108–118): the filter string is the
f-string interpolation of `search_term`. -/
def search_drive_files_body (env : DriveEnv) (search_term : String) (max_results : Int) :
    Except Err (List RemoteRecord) × List Ev :=
  match get_drive env.auth with
  | (Except.error e, t) => (Except.error e, t)
  | (Except.ok _, t) =>
    let query := "name contains '" ++ search_term ++ "'"
    let t2 := t ++ [Ev.listCall (some query) max_results listFields]
    match env.listResp with
    | Except.error e => (Except.error e, t2)
    | Except.ok resp =>
      let files := resp.getD []
      (Except.ok files,
       t2 ++ [Ev.stderr ("Found " ++ toString files.length ++ " files matching '" ++
                         search_term ++ "'")])

/-- `search_drive_files` tool (lines 99–121). -/
def search_drive_files (env : DriveEnv) (search_term : String) (max_results : Int) :
    Except Err (List RemoteRecord) × List Ev :=
  toolWrap "search_drive_files" (search_drive_files_body env search_term max_results)

/-- Body of `create_folder` (lines 133–144): metadata gains `parents` only
when `parent_folder_id` is truthy. -/
def create_folder_body (env : DriveEnv) (folder_name : String)
    (parent_folder_id : Option String) : Except Err RemoteRecord × List Ev :=
  match get_drive env.auth with
  | (Except.error e, t) => (Except.error e, t)
  | (Except.ok _, t) =>
    let file_metadata : FileMetadata :=
      { name := folder_name,
        mimeType := some "application/vnd.google-apps.folder",
        parents := if truthy parent_folder_id then some [parent_folder_id.getD ""] else none }
    let t2 := t ++ [Ev.createCall file_metadata false "id, name, webViewLink"]
    match env.createResp with
    | Except.error e => (Except.error e, t2)
    | Except.ok folder =>
      (Except.ok folder,
       t2 ++ [Ev.stderr ("Created folder: " ++ pyStr (folder.get "name"))])

/-- `create_folder` tool (lines 124–147). -/
def create_folder (env : DriveEnv) (folder_name : String)
    (parent_folder_id : Option String) : Except Err RemoteRecord × List Ev :=
  toolWrap "create_folder" (create_folder_body env folder_name parent_folder_id)

/-- Body of `upload_file` (lines 160–180): `get_drive()` first, then the
local existence check, then one `files().create` with media. -/
def upload_file_body (env : DriveEnv) (file_path : String) (file_name : Option String)
    (parent_folder_id : Option String) : Except Err RemoteRecord × List Ev :=
  match get_drive env.auth with
  | (Except.error e, t) => (Except.error e, t)
  | (Except.ok _, t) =>
    let t1 := t ++ [Ev.checkExists file_path]
    if !env.localExists file_path then
      (Except.error (Err.fileNotFound ("File not found: " ++ file_path)), t1)
    else
      let file_metadata : FileMetadata :=
        { name := if truthy file_name then file_name.getD "" else basename file_path,
          mimeType := none,
          parents := if truthy parent_folder_id then some [parent_folder_id.getD ""] else none }
      let t2 := t1 ++ [Ev.createCall file_metadata true "id, name, webViewLink"]
      match env.createResp with
      | Except.error e => (Except.error e, t2)
      | Except.ok f =>
        (Except.ok f, t2 ++ [Ev.stderr ("Uploaded file: " ++ pyStr (f.get "name"))])

/-- `upload_file` tool (lines 150–183). -/
def upload_file (env : DriveEnv) (file_path : String) (file_name : Option String)
    (parent_folder_id : Option String) : Except Err RemoteRecord × List Ev :=
  toolWrap "upload_file" (upload_file_body env file_path file_name parent_folder_id)

/-- Result envelope of `delete_file`. -/
structure DeleteResult where
  success : Bool
  message : String
deriving DecidableEq, Repr

/-- Body of `delete_file` (lines 194–198). -/
def delete_file_body (env : DriveEnv) (file_id : String) :
    Except Err DeleteResult × List Ev :=
  match get_drive env.auth with
  | (Except.error e, t) => (Except.error e, t)
  | (Except.ok _, t) =>
    let t2 := t ++ [Ev.deleteCall file_id]
    match env.deleteResp with
    | Except.error e => (Except.error e, t2)
    | Except.ok _ =>
      (Except.ok { success := true, message := "File " ++ file_id ++ " deleted successfully" },
       t2 ++ [Ev.stderr ("Deleted file with ID: " ++ file_id)])

/-- `delete_file` tool (lines 186–201). -/
def delete_file (env : DriveEnv) (file_id : String) : Except Err DeleteResult × List Ev :=
  toolWrap "delete_file" (delete_file_body env file_id)

/-- Result envelope of `download_file`. -/
structure DownloadResult where
  success : Bool
  path : String
deriving DecidableEq, Repr

/-- The `while not done: status, done = downloader.next_chunk()` loop
(lines 220–223), consuming the chunk plan.  Each successful step logs the
reported progress percent.  If the plan is exhausted before completion the
source loop would never terminate; the embedding returns
`Err.nonTermination` there. -/
def downloadLoop : List (Except Err (Nat × Bool)) → Nat → Except Err Unit × List Ev
  | [], _ => (Except.error Err.nonTermination, [])
  | step :: rest, i =>
    match step with
    | Except.error e => (Except.error e, [Ev.fetchChunk i])
    | Except.ok (progress, done) =>
      let t := [Ev.fetchChunk i,
                Ev.stderr ("Download progress: " ++ toString progress ++ "%")]
      if done then (Except.ok (), t)
      else
        let r := downloadLoop rest (i + 1)
        (r.1, t ++ r.2)

/-- Body of `download_file` (lines 213–226): builds the media request, opens
(creating or truncating) the destination, then fetches chunks. -/
def download_file_body (env : DriveEnv) (file_id : String) (destination_path : String) :
    Except Err DownloadResult × List Ev :=
  match get_drive env.auth with
  | (Except.error e, t) => (Except.error e, t)
  | (Except.ok _, t) =>
    let t1 := t ++ [Ev.getMediaRequest file_id, Ev.openLocalWrite destination_path]
    let r := downloadLoop env.getMediaPlan 0
    match r.1 with
    | Except.error e => (Except.error e, t1 ++ r.2)
    | Except.ok _ =>
      (Except.ok { success := true, path := destination_path },
       t1 ++ r.2 ++ [Ev.stderr ("Downloaded file to: " ++ destination_path)])

/-- `download_file` tool (lines 204–229). -/
def download_file (env : DriveEnv) (file_id : String) (destination_path : String) :
    Except Err DownloadResult × List Ev :=
  toolWrap "download_file" (download_file_body env file_id destination_path)

/-- Body of `rename_file` (lines 241–249): one update with a name body. -/
def rename_file_body (env : DriveEnv) (file_id : String) (new_name : String) :
    Except Err RemoteRecord × List Ev :=
  match get_drive env.auth with
  | (Except.error e, t) => (Except.error e, t)
  | (Except.ok _, t) =>
    let t2 := t ++ [Ev.updateCall file_id (some new_name) none none "id, name, webViewLink"]
    match env.updateResp with
    | Except.error e => (Except.error e, t2)
    | Except.ok f =>
      (Except.ok f, t2 ++ [Ev.stderr ("Renamed file to: " ++ pyStr (f.get "name"))])

/-- `rename_file` tool (lines 232–252). -/
def rename_file (env : DriveEnv) (file_id : String) (new_name : String) :
    Except Err RemoteRecord × List Ev :=
  toolWrap "rename_file" (rename_file_body env file_id new_name)

/-- Body of `move_file` (lines 264–279): read the current parents, join them
with commas, then one update with `addParents`/`removeParents`. -/
def move_file_body (env : DriveEnv) (file_id : String) (new_parent_folder_id : String) :
    Except Err RemoteRecord × List Ev :=
  match get_drive env.auth with
  | (Except.error e, t) => (Except.error e, t)
  | (Except.ok _, t) =>
    let t1 := t ++ [Ev.getCall file_id "parents"]
    match env.getParentsResp with
    | Except.error e => (Except.error e, t1)
    | Except.ok parentsResp =>
      let previous_parents := String.intercalate "," (parentsResp.getD [])
      let t2 := t1 ++ [Ev.updateCall file_id none (some new_parent_folder_id)
                        (some previous_parents) "id, name, parents, webViewLink"]
      match env.updateResp with
      | Except.error e => (Except.error e, t2)
      | Except.ok f =>
        (Except.ok f, t2 ++ [Ev.stderr "Moved file to new folder"])

/-- `move_file` tool (lines 255–282). -/
def move_file (env : DriveEnv) (file_id : String) (new_parent_folder_id : String) :
    Except Err RemoteRecord × List Ev :=
  toolWrap "move_file" (move_file_body env file_id new_parent_folder_id)

/-- Body of `get_file_info` (lines 293–299). -/
def get_file_info_body (env : DriveEnv) (file_id : String) :
    Except Err RemoteRecord × List Ev :=
  match get_drive env.auth with
  | (Except.error e, t) => (Except.error e, t)
  | (Except.ok _, t) =>
    let t2 := t ++ [Ev.getCall file_id
      "id, name, mimeType, size, createdTime, modifiedTime, webViewLink, owners, permissions"]
    match env.getInfoResp with
    | Except.error e => (Except.error e, t2)
    | Except.ok f => (Except.ok f, t2)

/-- `get_file_info` tool (lines 285–302). -/
def get_file_info (env : DriveEnv) (file_id : String) :
    Except Err RemoteRecord × List Ev :=
  toolWrap "get_file_info" (get_file_info_body env file_id)

/-- Specification of the shared exception handler: the outcome's result is
exactly the body's result and the trace is the body's trace followed by one
stderr log when (and only when) the body raised.  So no error is suppressed
or altered, and the body is not re-run. -/
def logsAndReraises {α : Type} (fname : String) (body out : Except Err α × List Ev) : Prop :=
  out.1 = body.1 ∧
    out.2 = body.2 ++ (match body.1 with
      | Except.ok _ => []
      | Except.error e => [Ev.stderr ("ERROR in " ++ fname ++ ": " ++ errMsg e)])

/-- A fresh, valid (non-expired) credential holding a refresh token. -/
def credsFresh : Creds := { valid := true, expired := false, refresh_token := true }

/-- An expired (hence invalid) credential holding a refresh token. -/
def credsStale : Creds := { valid := false, expired := true, refresh_token := true }

/-- All-good auth environment: both files present, stored token valid. -/
def authOkEnv : AuthEnv :=
  { credentialsFileExists := true, tokenFileExists := true,
    loadToken := Except.ok credsFresh,
    refresh := fun _ => Except.ok credsFresh,
    runOAuthFlow := Except.ok credsFresh }

/-- Like `authOkEnv` but the client-secret file is absent. -/
def authNoSecretEnv : AuthEnv := { authOkEnv with credentialsFileExists := false }

/-- Like `authOkEnv` but the stored token is expired (refresh succeeds). -/
def authStaleEnv : AuthEnv := { authOkEnv with loadToken := Except.ok credsStale }

/-- Expired stored token and a failing refresh call. -/
def authRefreshFailEnv : AuthEnv :=
  { authStaleEnv with
    refresh := fun _ => Except.error (Err.authFlow "invalid_grant: token revoked") }

/-- A sample storage-service response record. -/
def sampleRecord : RemoteRecord := { attrs := [("id", "f1"), ("name", "report.txt")] }

/-- All-good tool environment. -/
def driveOkEnv : DriveEnv :=
  { auth := authOkEnv,
    localExists := fun _ => true,
    listResp := Except.ok (some [sampleRecord]),
    createResp := Except.ok sampleRecord,
    getParentsResp := Except.ok (some ["p1", "p2"]),
    updateResp := Except.ok sampleRecord,
    deleteResp := Except.ok (),
    getInfoResp := Except.ok sampleRecord,
    getMediaPlan := [Except.ok (50, false), Except.ok (100, true)] }

/-- Expired-but-refreshable token, and no local file exists. -/
def driveStaleMissingEnv : DriveEnv :=
  { driveOkEnv with auth := authStaleEnv, localExists := fun _ => false }

/-- All-good environment whose download plan fails on the second chunk. -/
def driveChunkFailEnv : DriveEnv :=
  { driveOkEnv with
    getMediaPlan := [Except.ok (10, false), Except.error (Err.http "connection reset")] }

theorem toolWrap_spec {α : Type} (fname : String) (b : Except Err α × List Ev) :
    logsAndReraises fname b (toolWrap fname b) := by
  unfold logsAndReraises toolWrap
  cases hb : b.1 <;> simp [hb]

theorem withCreds_no_storage (env : AuthEnv) (c0 : Option Creds) :
    ∀ ev ∈ (get_drive_withCreds env c0).2, ev.isStorageCall = false := by
  unfold get_drive_withCreds
  cases c0 with
  | none => cases env.runOAuthFlow <;> simp [saveAndBuildTrace, Ev.isStorageCall]
  | some c =>
    by_cases hv : c.valid
    · simp [hv, Ev.isStorageCall]
    · by_cases hr : c.expired && c.refresh_token
      · cases henv : env.refresh c <;>
          simp [hv, hr, henv, saveAndBuildTrace, Ev.isStorageCall]
      · cases henv : env.runOAuthFlow <;>
          simp [hv, hr, henv, saveAndBuildTrace, Ev.isStorageCall]

theorem get_drive_body_no_storage (env : AuthEnv) :
    ∀ ev ∈ (get_drive_body env).2, ev.isStorageCall = false := by
  unfold get_drive_body
  by_cases hc : env.credentialsFileExists
  · by_cases ht : env.tokenFileExists
    · cases hl : env.loadToken with
      | error e => simp [hc, ht, hl, Ev.isStorageCall]
      | ok c =>
        simp only [hc, ht, hl, Bool.not_true, if_true, if_false]
        intro ev hev
        simp [List.mem_append, List.mem_cons] at hev
        rcases hev with h | h | h | h | h | h | h
        · subst h; rfl
        · subst h; rfl
        · subst h; rfl
        · subst h; rfl
        · subst h; rfl
        · subst h; rfl
        · exact withCreds_no_storage env (some c) ev h
    · simp only [hc, ht, Bool.not_true, if_true, if_false]
      intro ev hev
      simp [List.mem_append, List.mem_cons] at hev
      rcases hev with h | h | h | h | h
      · subst h; rfl
      · subst h; rfl
      · subst h; rfl
      · subst h; rfl
      · exact withCreds_no_storage env none ev h
  · simp [hc, Ev.isStorageCall]

theorem get_drive_no_storage (env : AuthEnv) :
    ∀ ev ∈ (get_drive env).2, ev.isStorageCall = false := by
  unfold get_drive toolWrap
  cases hb : (get_drive_body env).1 with
  | ok v => simpa using get_drive_body_no_storage env
  | error e =>
    intro ev hev
    simp only [List.mem_append, List.mem_cons, List.not_mem_nil, or_false] at hev
    rcases hev with h | h
    · exact get_drive_body_no_storage env ev h
    · subst h; rfl

theorem countP_zero_of_no_storage {l : List Ev} {p : Ev → Bool}
    (hsub : ∀ ev, p ev = true → ev.isStorageCall = true)
    (h : ∀ ev ∈ l, ev.isStorageCall = false) : l.countP p = 0 := by
  rw [List.countP_eq_zero]
  intro a ha hpa
  have h2 := hsub a hpa
  rw [h a ha] at h2
  exact Bool.false_ne_true h2

theorem toolWrap_fst {α : Type} (fname : String) (b : Except Err α × List Ev) :
    (toolWrap fname b).1 = b.1 := (toolWrap_spec fname b).1

theorem withCreds_ok_source (env : AuthEnv) (c0 : Option Creds) (h : ServiceHandle)
    (hok : (get_drive_withCreds env c0).1 = Except.ok h) :
    (c0 = some h.creds ∧ h.creds.valid = true) ∨
      (∃ c, env.refresh c = Except.ok h.creds) ∨
      env.runOAuthFlow = Except.ok h.creds := by
  obtain ⟨hc⟩ := h
  unfold get_drive_withCreds at hok
  cases c0 with
  | none =>
    cases ho : env.runOAuthFlow with
    | error e => rw [ho] at hok; simp at hok
    | ok c2 =>
      rw [ho] at hok
      simp at hok
      right; right
      subst hok
      rfl
  | some c =>
    by_cases hv : c.valid
    · simp [hv] at hok
      exact Or.inl ⟨by rw [hok], by rw [← hok]; exact hv⟩
    · by_cases hr : c.expired && c.refresh_token
      · cases hrf : env.refresh c with
        | error e => simp [hv, hr, hrf] at hok
        | ok c2 =>
          simp [hv, hr, hrf] at hok
          exact Or.inr (Or.inl ⟨c, by rw [hrf, hok]⟩)
      · cases ho : env.runOAuthFlow with
        | error e => simp [hv, hr, ho] at hok
        | ok c2 =>
          simp [hv, hr, ho] at hok
          subst hok
          exact Or.inr (Or.inr rfl)

/-- C1: whenever `get_drive` returns a handle, the Credential backing it is
valid (non-expired) at return time: it is either the freshly loaded and
still-valid stored Credential, a freshly refreshed Credential, or one
freshly obtained through the interactive OAuth flow.  The hypotheses state
the semantics of the external collaborators: a successful refresh or
interactive authorization yields a valid, non-expired Credential, and a
loaded Credential reporting `valid` is not expired. -/
theorem get_drive_returns_nonexpired_creds (env : AuthEnv)
    (hload : ∀ c, env.loadToken = Except.ok c → c.valid = true → c.expired = false)
    (hrefresh : ∀ c c2, env.refresh c = Except.ok c2 → c2.valid = true ∧ c2.expired = false)
    (hoauth : ∀ c, env.runOAuthFlow = Except.ok c → c.valid = true ∧ c.expired = false)
    (h : ServiceHandle) (hok : (get_drive env).1 = Except.ok h) :
    (h.creds.valid = true ∧ h.creds.expired = false) ∧
      ((env.loadToken = Except.ok h.creds ∧ h.creds.valid = true) ∨
        (∃ c, env.refresh c = Except.ok h.creds) ∨
        env.runOAuthFlow = Except.ok h.creds) := by
  rw [get_drive, toolWrap_fst] at hok
  unfold get_drive_body at hok
  by_cases hcf : env.credentialsFileExists
  · by_cases ht : env.tokenFileExists
    · cases hl : env.loadToken with
      | error e => simp [hcf, ht, hl] at hok
      | ok c =>
        simp only [hcf, ht, hl, Bool.not_true, if_true, if_false] at hok
        have hsrc := withCreds_ok_source env (some c) h hok
        rcases hsrc with ⟨hsome, hval⟩ | ⟨c0, hrf⟩ | ho
        · have hceq : c = h.creds := by injection hsome
          exact ⟨⟨hval, hload h.creds (hl.trans (congrArg Except.ok hceq)) hval⟩,
                 Or.inl ⟨congrArg Except.ok hceq, hval⟩⟩
        · have := hrefresh c0 h.creds hrf
          exact ⟨this, Or.inr (Or.inl ⟨c0, hrf⟩)⟩
        · have := hoauth h.creds ho
          exact ⟨this, Or.inr (Or.inr ho)⟩
    · simp only [hcf, ht, Bool.not_true, if_true, if_false] at hok
      have hsrc := withCreds_ok_source env none h hok
      rcases hsrc with ⟨hsome, _⟩ | ⟨c0, hrf⟩ | ho
      · exact absurd hsome (by simp)
      · have := hrefresh c0 h.creds hrf
        exact ⟨this, Or.inr (Or.inl ⟨c0, hrf⟩)⟩
      · have := hoauth h.creds ho
        exact ⟨this, Or.inr (Or.inr ho)⟩
  · simp [hcf] at hok

/-- C1 witness: on `authOkEnv` the hypotheses hold and `get_drive` returns
the stored valid Credential. -/
theorem get_drive_returns_nonexpired_creds_witness :
    (credsFresh.valid = true ∧ credsFresh.expired = false) ∧
      ((authOkEnv.loadToken = Except.ok credsFresh ∧ credsFresh.valid = true) ∨
        (∃ c, authOkEnv.refresh c = Except.ok credsFresh) ∨
        authOkEnv.runOAuthFlow = Except.ok credsFresh) :=
  get_drive_returns_nonexpired_creds authOkEnv
    (fun c hc _ => by
      simp only [authOkEnv, Except.ok.injEq] at hc
      subst hc; rfl)
    (fun c c2 hc => by
      simp only [authOkEnv, Except.ok.injEq] at hc
      subst hc; exact ⟨rfl, rfl⟩)
    (fun c hc => by
      simp only [authOkEnv, Except.ok.injEq] at hc
      subst hc; exact ⟨rfl, rfl⟩)
    { creds := credsFresh } rfl

/-- C2 counterexample: a valid persisted Credential is present and loads,
but the client-secret file is absent; `get_drive` raises FileNotFoundError
instead of returning the handle, refuting the claim that such an invocation
succeeds without consulting the client-secret artifact. -/
theorem get_drive_requires_client_secret_file :
    authNoSecretEnv.tokenFileExists = true ∧
      authNoSecretEnv.loadToken = Except.ok credsFresh ∧
      credsFresh.valid = true ∧
      (get_drive authNoSecretEnv).1 =
        Except.error (Err.fileNotFound ("credentials.json not found at " ++ CREDENTIALS_FILE)) :=
  ⟨rfl, rfl, rfl, rfl⟩

/-- C2 (amended): when the client-secret artifact is present (it is checked
first and is a hard precondition) and the persisted Credential loads and is
valid, `get_drive` returns a handle built from that Credential immediately:
no identity-provider network call and no token write occur. -/
theorem get_drive_valid_token_fast_path (env : AuthEnv) (c : Creds)
    (hcf : env.credentialsFileExists = true)
    (ht : env.tokenFileExists = true)
    (hl : env.loadToken = Except.ok c)
    (hv : c.valid = true) :
    (get_drive env).1 = Except.ok { creds := c } ∧
      ((get_drive env).2.all fun ev => !ev.isNetworkAuth) = true ∧
      Ev.writeToken ∉ (get_drive env).2 := by
  have hgd : get_drive env =
      (Except.ok { creds := c },
       [Ev.stderr "Starting authentication process...", Ev.checkExists CREDENTIALS_FILE,
        Ev.stderr ("credentials.json found at " ++ CREDENTIALS_FILE), Ev.checkExists TOKEN_FILE,
        Ev.stderr "Loading existing token...", Ev.readToken,
        Ev.stderr "Building Drive service...", Ev.buildService,
        Ev.stderr "Drive service ready!"]) := by
    unfold get_drive get_drive_body get_drive_withCreds toolWrap
    simp [hcf, ht, hl, hv]
  rw [hgd]
  exact ⟨rfl, by simp [Ev.isNetworkAuth], by simp⟩

/-- C2 witness for the amended theorem, on `authOkEnv`. -/
theorem get_drive_valid_token_fast_path_witness :
    (get_drive authOkEnv).1 = Except.ok { creds := credsFresh } ∧
      ((get_drive authOkEnv).2.all fun ev => !ev.isNetworkAuth) = true ∧
      Ev.writeToken ∉ (get_drive authOkEnv).2 :=
  get_drive_valid_token_fast_path authOkEnv credsFresh rfl rfl rfl rfl

/-- C3 counterexample: the stored Credential is expired with a refresh
token, the refresh call fails, and `get_drive` surfaces the refresh error
without ever starting the interactive OAuth flow — refuting the claimed
fall-through to interactive authorization. -/
theorem get_drive_refresh_failure_not_fallthrough :
    credsStale.expired = true ∧ credsStale.refresh_token = true ∧
      (get_drive authRefreshFailEnv).1 =
        Except.error (Err.authFlow "invalid_grant: token revoked") ∧
      ((get_drive authRefreshFailEnv).2.all fun ev => !ev.isOauthFlow) = true := by
  exact ⟨rfl, rfl, rfl, by decide⟩

/-- C3 (amended): when the loaded Credential is invalid, expired and holds a
refresh token, and the refresh call against the identity provider fails,
`get_drive` propagates the refresh failure to the caller (after stderr
logging) and does not perform interactive authorization. -/
theorem get_drive_refresh_failure_propagates (env : AuthEnv) (c : Creds) (e : Err)
    (hcf : env.credentialsFileExists = true)
    (ht : env.tokenFileExists = true)
    (hl : env.loadToken = Except.ok c)
    (hv : c.valid = false)
    (hx : c.expired = true)
    (hr : c.refresh_token = true)
    (hrf : env.refresh c = Except.error e) :
    (get_drive env).1 = Except.error e ∧
      ((get_drive env).2.all fun ev => !ev.isOauthFlow) = true := by
  have hgd : get_drive env =
      (Except.error e,
       [Ev.stderr "Starting authentication process...", Ev.checkExists CREDENTIALS_FILE,
        Ev.stderr ("credentials.json found at " ++ CREDENTIALS_FILE), Ev.checkExists TOKEN_FILE,
        Ev.stderr "Loading existing token...", Ev.readToken,
        Ev.stderr "Refreshing expired token...", Ev.refreshCall,
        Ev.stderr ("ERROR in get_drive: " ++ errMsg e)]) := by
    unfold get_drive get_drive_body get_drive_withCreds toolWrap
    simp [hcf, ht, hl, hv, hx, hr, hrf]
  rw [hgd]
  exact ⟨rfl, by simp [Ev.isOauthFlow]⟩

/-- C3 witness for the amended theorem, on `authRefreshFailEnv`. -/
theorem get_drive_refresh_failure_propagates_witness :
    (get_drive authRefreshFailEnv).1 =
        Except.error (Err.authFlow "invalid_grant: token revoked") ∧
      ((get_drive authRefreshFailEnv).2.all fun ev => !ev.isOauthFlow) = true :=
  get_drive_refresh_failure_propagates authRefreshFailEnv credsStale
    (Err.authFlow "invalid_grant: token revoked") rfl rfl rfl rfl rfl rfl rfl

/-- C7: in `get_drive` and in every tool, a failure in the body is logged to
stderr and then re-raised unchanged — the caller receives the same
exception with its original message, the body is executed once with no
retry, and no error is suppressed. -/
theorem tool_errors_logged_and_reraised (env : DriveEnv) (m : Int)
    (q term n fp fid nn np dp : String) (fn pid : Option String) :
    logsAndReraises "get_drive" (get_drive_body env.auth) (get_drive env.auth) ∧
    logsAndReraises "list_drive_files" (list_drive_files_body env m q)
      (list_drive_files env m q) ∧
    logsAndReraises "search_drive_files" (search_drive_files_body env term m)
      (search_drive_files env term m) ∧
    logsAndReraises "create_folder" (create_folder_body env n pid)
      (create_folder env n pid) ∧
    logsAndReraises "upload_file" (upload_file_body env fp fn pid)
      (upload_file env fp fn pid) ∧
    logsAndReraises "delete_file" (delete_file_body env fid)
      (delete_file env fid) ∧
    logsAndReraises "download_file" (download_file_body env fid dp)
      (download_file env fid dp) ∧
    logsAndReraises "rename_file" (rename_file_body env fid nn)
      (rename_file env fid nn) ∧
    logsAndReraises "move_file" (move_file_body env fid np)
      (move_file env fid np) ∧
    logsAndReraises "get_file_info" (get_file_info_body env fid)
      (get_file_info env fid) :=
  ⟨toolWrap_spec _ _, toolWrap_spec _ _, toolWrap_spec _ _, toolWrap_spec _ _,
   toolWrap_spec _ _, toolWrap_spec _ _, toolWrap_spec _ _, toolWrap_spec _ _,
   toolWrap_spec _ _, toolWrap_spec _ _⟩

theorem update_implies_storage : ∀ ev : Ev, ev.isUpdateCall = true → ev.isStorageCall = true := by
  intro ev
  cases ev <;> simp [Ev.isUpdateCall, Ev.isStorageCall]

theorem list_implies_storage : ∀ ev : Ev, ev.isListCall = true → ev.isStorageCall = true := by
  intro ev
  cases ev <;> simp [Ev.isListCall, Ev.isStorageCall]

theorem fetch_implies_storage : ∀ ev : Ev, ev.isFetchChunk = true → ev.isStorageCall = true := by
  intro ev
  cases ev <;> simp [Ev.isFetchChunk, Ev.isStorageCall]

/-- C4 counterexample: with an expired-but-refreshable stored token and a
missing local file, `upload_file` performs the token-refresh network call
before the local existence check — refuting the claim that no credential
acquisition network activity happens prior to that check. -/
theorem upload_file_auth_precedes_existence_check :
    (upload_file driveStaleMissingEnv "/tmp/missing.txt" none none).1 =
      Except.error (Err.fileNotFound ("File not found: " ++ "/tmp/missing.txt")) ∧
    Ev.refreshCall ∈ ((upload_file driveStaleMissingEnv "/tmp/missing.txt" none none).2.takeWhile
      fun ev => ev != Ev.checkExists "/tmp/missing.txt") := by
  exact ⟨rfl, by decide⟩

/-- C4 (amended): `upload_file` on a missing local path fails with the
local-file-not-found error and issues no storage-service request; but
credential acquisition — with its possible refresh or interactive
authorization network activity — runs before the existence check, not
after it (see `upload_file_auth_precedes_existence_check`). -/
theorem upload_file_missing_path_no_storage_call (env : DriveEnv) (fp : String)
    (fn pid : Option String) (h : ServiceHandle)
    (hauth : (get_drive env.auth).1 = Except.ok h)
    (hmiss : env.localExists fp = false) :
    (upload_file env fp fn pid).1 = Except.error (Err.fileNotFound ("File not found: " ++ fp)) ∧
      ((upload_file env fp fn pid).2.all fun ev => !ev.isStorageCall) = true := by
  cases hgd : get_drive env.auth with
  | mk r t =>
    rw [hgd] at hauth
    simp at hauth
    subst hauth
    have hbody : upload_file_body env fp fn pid =
        (Except.error (Err.fileNotFound ("File not found: " ++ fp)),
         t ++ [Ev.checkExists fp]) := by
      unfold upload_file_body
      rw [hgd]
      simp [hmiss]
    unfold upload_file toolWrap
    rw [hbody]
    refine ⟨rfl, ?_⟩
    rw [List.all_eq_true]
    intro ev hev
    simp only [List.mem_append, List.mem_cons, List.not_mem_nil, or_false] at hev
    rcases hev with (hev | hev) | hev
    · have hs := get_drive_no_storage env.auth ev (by rw [hgd]; simpa using hev)
      simp [hs]
    · subst hev; rfl
    · subst hev; rfl

/-- C4 witness for the amended theorem. -/
theorem upload_file_missing_path_no_storage_call_witness :
    (upload_file driveStaleMissingEnv "/data/a.txt" none none).1 =
        Except.error (Err.fileNotFound ("File not found: " ++ "/data/a.txt")) ∧
      ((upload_file driveStaleMissingEnv "/data/a.txt" none none).2.all
        fun ev => !ev.isStorageCall) = true :=
  upload_file_missing_path_no_storage_call driveStaleMissingEnv "/data/a.txt" none none
    { creds := credsFresh } rfl rfl

/-- C5: `move_file` issues exactly one update call per invocation, with
`addParents` the target folder id, `removeParents` the comma-join of the
parent list read by the preceding get call, and a fields selector
requesting {id, name, parents, webViewLink} (the returned record is the
service's response to exactly that request). -/
theorem move_file_single_update_call (env : DriveEnv) (fid np : String)
    (h : ServiceHandle) (ps : Option (List String))
    (hauth : (get_drive env.auth).1 = Except.ok h)
    (hget : env.getParentsResp = Except.ok ps) :
    ((move_file env fid np).2.countP fun ev => ev.isUpdateCall) = 1 ∧
      Ev.updateCall fid none (some np) (some (String.intercalate "," (ps.getD [])))
        "id, name, parents, webViewLink" ∈ (move_file env fid np).2 := by
  cases hgd : get_drive env.auth with
  | mk r t =>
    rw [hgd] at hauth
    simp at hauth
    subst hauth
    have hzero : (t.countP fun ev => ev.isUpdateCall) = 0 :=
      countP_zero_of_no_storage update_implies_storage
        (fun ev hev => get_drive_no_storage env.auth ev (by rw [hgd]; simpa using hev))
    unfold move_file toolWrap move_file_body
    rw [hgd]
    cases hup : env.updateResp with
    | error e =>
      simp only [hget, hup]
      constructor
      · simp [List.countP_append, List.countP_cons, hzero, Ev.isUpdateCall]
        intro a ha
        have h2 := get_drive_no_storage env.auth a (by rw [hgd]; simpa using ha)
        cases a <;> simp_all [Ev.isStorageCall]
      · simp
    | ok f =>
      simp only [hget, hup]
      constructor
      · simp [List.countP_append, List.countP_cons, hzero, Ev.isUpdateCall]
        intro a ha
        have h2 := get_drive_no_storage env.auth a (by rw [hgd]; simpa using ha)
        cases a <;> simp_all [Ev.isStorageCall]
      · simp

/-- C5 witness on `driveOkEnv` (two prior parents, joined as "p1,p2"). -/
theorem move_file_single_update_call_witness :
    ((move_file driveOkEnv "f1" "np1").2.countP fun ev => ev.isUpdateCall) = 1 ∧
      Ev.updateCall "f1" none (some "np1")
        (some (String.intercalate "," ((some ["p1", "p2"] : Option (List String)).getD [])))
        "id, name, parents, webViewLink" ∈ (move_file driveOkEnv "f1" "np1").2 :=
  move_file_single_update_call driveOkEnv "f1" "np1" { creds := credsFresh }
    (some ["p1", "p2"]) rfl rfl

/-- C6: `search_drive_files` issues exactly one list request, with filter
string `name contains '<search_term>'` and page size `max_results`; and
(assuming the storage service honors the page size, and a non-negative
page size) the returned sequence has at most `max_results` records. -/
theorem search_drive_files_single_list_request (env : DriveEnv) (term : String) (m : Int)
    (h : ServiceHandle) (fs : List RemoteRecord)
    (hauth : (get_drive env.auth).1 = Except.ok h)
    (hm : 0 ≤ m)
    (hhonor : ∀ l, env.listResp = Except.ok (some l) → (l.length : Int) ≤ m)
    (hres : (search_drive_files env term m).1 = Except.ok fs) :
    ((search_drive_files env term m).2.countP fun ev => ev.isListCall) = 1 ∧
      Ev.listCall (some ("name contains '" ++ term ++ "'")) m listFields
        ∈ (search_drive_files env term m).2 ∧
      (fs.length : Int) ≤ m := by
  cases hgd : get_drive env.auth with
  | mk r t =>
    rw [hgd] at hauth
    simp at hauth
    subst hauth
    have hzero : (t.countP fun ev => ev.isListCall) = 0 :=
      countP_zero_of_no_storage list_implies_storage
        (fun ev hev => get_drive_no_storage env.auth ev (by rw [hgd]; simpa using hev))
    rw [search_drive_files] at hres
    rw [toolWrap_fst] at hres
    rw [search_drive_files_body] at hres
    rw [hgd] at hres
    unfold search_drive_files toolWrap search_drive_files_body
    rw [hgd]
    cases hresp : env.listResp with
    | error e => rw [hresp] at hres; simp at hres
    | ok ro =>
      rw [hresp] at hres
      simp at hres
      refine ⟨?_, ?_, ?_⟩
      · simp [hresp, List.countP_append, List.countP_cons, hzero, Ev.isListCall]
        intro a ha
        have h2 := get_drive_no_storage env.auth a (by rw [hgd]; simpa using ha)
        cases a <;> simp_all [Ev.isStorageCall]
      · simp [hresp]
      · cases ro with
        | none => simp at hres; subst hres; simpa using hm
        | some l =>
          simp at hres
          subst hres
          exact hhonor l hresp

/-- C6 witness: `search("report", 5)` on `driveOkEnv`. -/
theorem search_drive_files_single_list_request_witness :
    ((search_drive_files driveOkEnv "report" 5).2.countP fun ev => ev.isListCall) = 1 ∧
      Ev.listCall (some ("name contains '" ++ "report" ++ "'")) 5 listFields
        ∈ (search_drive_files driveOkEnv "report" 5).2 ∧
      (([sampleRecord] : List RemoteRecord).length : Int) ≤ 5 :=
  search_drive_files_single_list_request driveOkEnv "report" 5 { creds := credsFresh }
    [sampleRecord] rfl (by decide)
    (fun l hl => by
      simp only [driveOkEnv, Except.ok.injEq, Option.some.injEq] at hl
      rw [← hl]; decide)
    rfl

theorem search_listCall_mem (env : DriveEnv) (term : String) (m : Int)
    (h : ServiceHandle) (hauth : (get_drive env.auth).1 = Except.ok h) :
    Ev.listCall (some ("name contains '" ++ term ++ "'")) m listFields
      ∈ (search_drive_files env term m).2 := by
  cases hgd : get_drive env.auth with
  | mk r t =>
    rw [hgd] at hauth
    simp at hauth
    subst hauth
    unfold search_drive_files toolWrap search_drive_files_body
    rw [hgd]
    cases hresp : env.listResp with
    | error e => simp [hresp]
    | ok ro => simp [hresp]

/-- C8: the search filter is built by direct string interpolation with no
escaping — the issued query equals `"name contains '" ++ search_term ++ "'"`
— so a search term containing a single quote breaks the quoting and passes
filter syntax through: searching for the term
`report' or name contains 'secret` issues the compound filter
`name contains 'report' or name contains 'secret'`. -/
theorem search_query_direct_interpolation (env : DriveEnv) (term : String) (m : Int)
    (h : ServiceHandle) (hauth : (get_drive env.auth).1 = Except.ok h) :
    Ev.listCall (some ("name contains '" ++ term ++ "'")) m listFields
        ∈ (search_drive_files env term m).2 ∧
      Ev.listCall (some "name contains 'report' or name contains 'secret'") m listFields
        ∈ (search_drive_files env "report' or name contains 'secret" m).2 := by
  refine ⟨search_listCall_mem env term m h hauth, ?_⟩
  have hq : "name contains '" ++ "report' or name contains 'secret" ++ "'" =
      "name contains 'report' or name contains 'secret'" := by decide
  have hmem := search_listCall_mem env "report' or name contains 'secret" m h hauth
  rw [hq] at hmem
  exact hmem

/-- C8 witness on `driveOkEnv`. -/
theorem search_query_direct_interpolation_witness :
    Ev.listCall (some ("name contains '" ++ "x" ++ "'")) 3 listFields
        ∈ (search_drive_files driveOkEnv "x" 3).2 ∧
      Ev.listCall (some "name contains 'report' or name contains 'secret'") 3 listFields
        ∈ (search_drive_files driveOkEnv "report' or name contains 'secret" 3).2 :=
  search_query_direct_interpolation driveOkEnv "x" 3 { creds := credsFresh } rfl

/-- C9: optional string arguments are tested by truthiness, so passing the
empty string behaves exactly like omitting the argument:
`list_drive_files` with `query = ""` (its default) sends no filter
parameter; `create_folder` and `upload_file` with `parent_folder_id = ""`
behave as with `None`, setting no parents (root); and `upload_file` with
`file_name = ""` behaves as with `None`, naming the file by the basename
of `file_path`. -/
theorem empty_string_behaves_as_omitted (env : DriveEnv) (m : Int) (n p : String)
    (fn pid : Option String) (h : ServiceHandle)
    (hauth : (get_drive env.auth).1 = Except.ok h)
    (hex : env.localExists p = true) :
    Ev.listCall none m listFields ∈ (list_drive_files env m "").2 ∧
      create_folder env n (some "") = create_folder env n none ∧
      upload_file env p (some "") pid = upload_file env p none pid ∧
      upload_file env p fn (some "") = upload_file env p fn none ∧
      Ev.createCall (FileMetadata.mk n (some "application/vnd.google-apps.folder") none)
          false "id, name, webViewLink" ∈ (create_folder env n (some "")).2 ∧
      Ev.createCall (FileMetadata.mk (basename p) none none) true
          "id, name, webViewLink" ∈ (upload_file env p (some "") none).2 := by
  cases hgd : get_drive env.auth with
  | mk r t =>
    rw [hgd] at hauth
    simp at hauth
    subst hauth
    refine ⟨?_, ?_, ?_, ?_, ?_, ?_⟩
    · unfold list_drive_files toolWrap list_drive_files_body
      rw [hgd]
      cases hresp : env.listResp with
      | error e => simp [hresp]
      | ok ro => simp [hresp]
    · unfold create_folder create_folder_body
      simp [truthy]
    · unfold upload_file upload_file_body
      simp [truthy]
    · unfold upload_file upload_file_body
      simp [truthy]
    · unfold create_folder toolWrap create_folder_body
      rw [hgd]
      cases hresp : env.createResp with
      | error e => simp [hresp, truthy]
      | ok f => simp [hresp, truthy]
    · unfold upload_file toolWrap upload_file_body
      rw [hgd]
      cases hresp : env.createResp with
      | error e => simp [hresp, hex, truthy]
      | ok f => simp [hresp, hex, truthy]

/-- C9 witness on `driveOkEnv`. -/
theorem empty_string_behaves_as_omitted_witness :
    Ev.listCall none 10 listFields ∈ (list_drive_files driveOkEnv 10 "").2 ∧
      create_folder driveOkEnv "Reports" (some "") = create_folder driveOkEnv "Reports" none ∧
      upload_file driveOkEnv "/data/b.txt" (some "") none =
        upload_file driveOkEnv "/data/b.txt" none none ∧
      upload_file driveOkEnv "/data/b.txt" none (some "") =
        upload_file driveOkEnv "/data/b.txt" none none ∧
      Ev.createCall (FileMetadata.mk "Reports" (some "application/vnd.google-apps.folder") none)
          false "id, name, webViewLink" ∈ (create_folder driveOkEnv "Reports" (some "")).2 ∧
      Ev.createCall (FileMetadata.mk (basename "/data/b.txt") none none) true
          "id, name, webViewLink" ∈ (upload_file driveOkEnv "/data/b.txt" (some "") none).2 :=
  empty_string_behaves_as_omitted driveOkEnv 10 "Reports" "/data/b.txt" none none
    { creds := credsFresh } rfl rfl

theorem mem_takeWhile_of_prefix {α : Type} (p : α → Bool) (l1 l2 : List α) (a : α)
    (h1 : ∀ x ∈ l1, p x = true) (ha : p a = true) :
    a ∈ (l1 ++ a :: l2).takeWhile p := by
  induction l1 with
  | nil => simp [List.takeWhile_cons, ha]
  | cons b bs ih =>
    have hb : p b = true := h1 b (by simp)
    simp only [List.cons_append, List.takeWhile_cons, hb, if_true]
    exact List.mem_cons_of_mem b (ih (fun x hx => h1 x (by simp [hx])))

theorem downloadLoop_error_fst (pre : List Nat) (e : Err)
    (rest : List (Except Err (Nat × Bool))) :
    ∀ i, (downloadLoop (pre.map (fun pr => Except.ok (pr, false)) ++
        Except.error e :: rest) i).1 = Except.error e := by
  induction pre with
  | nil => intro i; simp [downloadLoop]
  | cons a as ih =>
    intro i
    simp only [List.map_cons, List.cons_append, downloadLoop]
    simpa using ih (i + 1)

theorem downloadLoop_done_fst (pre : List Nat) (pl : Nat) :
    ∀ i, (downloadLoop (pre.map (fun pr => Except.ok (pr, false)) ++
        [Except.ok (pl, true)]) i).1 = Except.ok () := by
  induction pre with
  | nil => intro i; simp [downloadLoop]
  | cons a as ih =>
    intro i
    simp only [List.map_cons, List.cons_append, downloadLoop]
    simpa using ih (i + 1)

/-- C10: `download_file` is not atomic with respect to the local
filesystem.  It opens (creating or truncating) the destination before
fetching any chunk; when a chunk fetch fails mid-transfer the exception
propagates while the destination has already been opened and written
(no event in the function removes it); and only when every chunk completes
does it return `{success := true, path := destination_path}`. -/
theorem download_file_not_atomic (envF envS : DriveEnv) (fid dp : String)
    (hF hS : ServiceHandle) (pre preS : List Nat) (e : Err)
    (rest : List (Except Err (Nat × Bool))) (pl : Nat)
    (hauthF : (get_drive envF.auth).1 = Except.ok hF)
    (hauthS : (get_drive envS.auth).1 = Except.ok hS)
    (hplanF : envF.getMediaPlan =
      pre.map (fun pr => Except.ok (pr, false)) ++ Except.error e :: rest)
    (hplanS : envS.getMediaPlan =
      preS.map (fun pr => Except.ok (pr, false)) ++ [Except.ok (pl, true)]) :
    Ev.openLocalWrite dp ∈
        ((download_file envF fid dp).2.takeWhile fun ev => !ev.isFetchChunk) ∧
      (download_file envF fid dp).1 = Except.error e ∧
      Ev.openLocalWrite dp ∈ (download_file envF fid dp).2 ∧
      (download_file envS fid dp).1 = Except.ok { success := true, path := dp } := by
  have hS4 : (download_file envS fid dp).1 = Except.ok { success := true, path := dp } := by
    cases hgd : get_drive envS.auth with
    | mk r t =>
      rw [hgd] at hauthS
      simp at hauthS
      subst hauthS
      unfold download_file toolWrap download_file_body
      rw [hgd, hplanS]
      simp [downloadLoop_done_fst]
  cases hgd : get_drive envF.auth with
  | mk r t =>
    rw [hgd] at hauthF
    simp at hauthF
    subst hauthF
    have hloop := downloadLoop_error_fst pre e rest 0
    have hbody : download_file_body envF fid dp =
        (Except.error e,
         t ++ [Ev.getMediaRequest fid, Ev.openLocalWrite dp] ++
           (downloadLoop (pre.map (fun pr => Except.ok (pr, false)) ++
             Except.error e :: rest) 0).2) := by
      unfold download_file_body
      rw [hgd, hplanF]
      simp [hloop]
    have hdf : download_file envF fid dp =
        (Except.error e,
         t ++ [Ev.getMediaRequest fid, Ev.openLocalWrite dp] ++
           (downloadLoop (pre.map (fun pr => Except.ok (pr, false)) ++
             Except.error e :: rest) 0).2 ++
           [Ev.stderr ("ERROR in " ++ "download_file" ++ ": " ++ errMsg e)]) := by
      unfold download_file toolWrap
      rw [hbody]
    rw [hdf]
    refine ⟨?_, rfl, by simp, hS4⟩
    have hshape : t ++ [Ev.getMediaRequest fid, Ev.openLocalWrite dp] ++
        (downloadLoop (pre.map (fun pr => Except.ok (pr, false)) ++
          Except.error e :: rest) 0).2 ++
        [Ev.stderr ("ERROR in " ++ "download_file" ++ ": " ++ errMsg e)] =
        (t ++ [Ev.getMediaRequest fid]) ++ Ev.openLocalWrite dp ::
          ((downloadLoop (pre.map (fun pr => Except.ok (pr, false)) ++
            Except.error e :: rest) 0).2 ++
           [Ev.stderr ("ERROR in " ++ "download_file" ++ ": " ++ errMsg e)]) := by
      simp
    rw [hshape]
    refine mem_takeWhile_of_prefix _ _ _ _ ?_ rfl
    intro x hx
    simp only [List.mem_append, List.mem_cons, List.not_mem_nil, or_false] at hx
    rcases hx with hx | hx
    · have hs := get_drive_no_storage envF.auth x (by rw [hgd]; simpa using hx)
      cases x <;> simp_all [Ev.isStorageCall, Ev.isFetchChunk]
    · subst hx; rfl

/-- C10 witness: failing plan on `driveChunkFailEnv`, succeeding plan on
`driveOkEnv`. -/
theorem download_file_not_atomic_witness :
    Ev.openLocalWrite "/tmp/out.bin" ∈
        ((download_file driveChunkFailEnv "f1" "/tmp/out.bin").2.takeWhile
          fun ev => !ev.isFetchChunk) ∧
      (download_file driveChunkFailEnv "f1" "/tmp/out.bin").1 =
        Except.error (Err.http "connection reset") ∧
      Ev.openLocalWrite "/tmp/out.bin" ∈
        (download_file driveChunkFailEnv "f1" "/tmp/out.bin").2 ∧
      (download_file driveOkEnv "f1" "/tmp/out.bin").1 =
        Except.ok { success := true, path := "/tmp/out.bin" } :=
  download_file_not_atomic driveChunkFailEnv driveOkEnv "f1" "/tmp/out.bin"
    { creds := credsFresh } { creds := credsFresh } [10] [50] (Err.http "connection reset")
    [] 100 rfl rfl rfl rfl

end GDrive
